import Mathlib

/-!
Verification of the `webtool` Flask application (`src/webtool/webtool.py`)
of the content-engineering-tutorial repository.

The route handlers of `webtool.py` are shallowly embedded as pure Lean
functions over an explicit request record.  The external search service
(`services.SearchClient`, whose source is not part of `src/`) is kept
abstract: handlers are parameterized by a `SearchClient` record of
functions, and every invocation a handler makes is recorded in the
handler's output so that "the client is (not) invoked" is an observable
fact of the embedding.  Python `None`-able request parameters become
`Option String`; the value `page if page else 1` — which in Python is
either the raw string or the int `1` — becomes the sum-like `PyVal`.
-/

/-- Documents returned by the external index are opaque records in this
repository; we model them as an abstract payload. -/
def Doc := String
deriving DecidableEq

/-- Result metadata produced by the search client (opaque to the routes). -/
def Meta := String
deriving DecidableEq

/-- Facet summary produced by the faceted search (opaque to the routes). -/
def Facets := String
deriving DecidableEq

/-- A Python value that is either a raw string or an integer: the `page`
variable of the handlers (`page = page if page else 1`) holds a string
from the query when present and non-empty, and the int `1` otherwise. -/
inductive PyVal where
  | str (s : String)
  | int (n : Nat)
deriving DecidableEq

/-- Error taxonomy of the search client.  Modelled from the spec:
`services.py` is not under `src/`; the spec states `get` "Fails with
`NotFound` if the identifier does not exist in the index; fails with
`UpstreamError` on transport/service failure". -/
inductive ClientErr where
  | notFound (id : Option String)
  | upstream
deriving DecidableEq

/-- Process-wide configuration, loaded from `app.cfg` at startup
(`app.config.from_pyfile`): the two index identifiers and the page size. -/
structure Config where
  SOLR_INDEX_0 : String
  SOLR_INDEX_1 : String
  NUM_RECS_PER_PAGE : Nat

/-- Behaviour of `services.SearchClient`, kept abstract.  The Python class
is constructed as `SearchClient(index, pageSize)` and then one method is
called; here the constructor arguments are passed as the first two
explicit arguments of each operation. -/
structure SearchClient where
  search_index0 : String → Nat → String → PyVal → String → Nat → Meta × List Doc
  search_index1 : String → Nat → String → Option String → Option String → PyVal → String → Nat → Meta × Facets × List Doc
  get : String → Nat → Option String → Except ClientErr Doc

/-- The request parameters a handler can read via `request.args.get`;
each is `none` when absent from the query string. -/
structure Request where
  q : Option String
  page : Option String
  fk : Option String
  fa : Option String
  id : Option String

/-- Python truthiness of an optional string: `None` and `""` are falsy,
every other string is truthy. -/
def truthy : Option String → Bool
  | none => false
  | some s => s ≠ ""

/-- The handlers' `page = page if page else 1`: the raw string when it is
truthy, the integer `1` otherwise. -/
def pageOrOne : Option String → PyVal
  | none => .int 1
  | some s => if s = "" then .int 1 else .str s

/-- One recorded invocation of `SearchClient.search_index0`. -/
structure PlainCall where
  index : String
  pageSize : Nat
  q : String
  page : PyVal
  view : String
  num : Nat
deriving DecidableEq

/-- One recorded invocation of `SearchClient.search_index1`. -/
structure FacetedCall where
  index : String
  pageSize : Nat
  q : String
  fk : Option String
  fa : Option String
  page : PyVal
  view : String
  num : Nat
deriving DecidableEq

/-- One recorded invocation of `SearchClient.get`. -/
structure GetCall where
  index : String
  pageSize : Nat
  id : Option String
deriving DecidableEq

/-- Output of a plain-search handler: the rendered template with its
`meta`/`docs` context, plus the client invocations the handler made and
the number of `SearchForm` validations it performed (the import of
`SearchForm` in `webtool.py` is never used, so handlers record `0`). -/
structure PlainOut where
  template : String
  meta : Option Meta
  docs : Option (List Doc)
  calls : List PlainCall
  formValidations : Nat
deriving DecidableEq

/-- Output of a faceted-search handler. -/
structure FacetedOut where
  template : String
  meta : Option Meta
  facets : Option Facets
  docs : Option (List Doc)
  calls : List FacetedCall
  formValidations : Nat
deriving DecidableEq

/-- Output of the `/content` handler's successful render. -/
structure ContentOut where
  template : String
  doc : Doc
deriving DecidableEq

/-- Handler of `/search0` (`methods=["GET", "POST"]`):
`q = request.args.get("q")`, `page = page if page else 1`; if `q` is
truthy, construct `SearchClient(SOLR_INDEX_0, NUM_RECS_PER_PAGE)` and call
`search_index0(q, page, "search0", 0)`; always render `search0.html`. -/
def search0 (cfg : Config) (b : SearchClient) (req : Request) : PlainOut :=
  let page := pageOrOne req.page
  match req.q with
  | none => ⟨"search0.html", none, none, [], 0⟩
  | some q =>
    if q = "" then ⟨"search0.html", none, none, [], 0⟩
    else
      let r := b.search_index0 cfg.SOLR_INDEX_0 cfg.NUM_RECS_PER_PAGE q page "search0" 0
      ⟨"search0.html", some r.1, some r.2,
        [⟨cfg.SOLR_INDEX_0, cfg.NUM_RECS_PER_PAGE, q, page, "search0", 0⟩], 0⟩

/-- Handler of `/search1`: identical to `search0` except the view label
`"search1"` and the final argument `1`. -/
def search1 (cfg : Config) (b : SearchClient) (req : Request) : PlainOut :=
  let page := pageOrOne req.page
  match req.q with
  | none => ⟨"search0.html", none, none, [], 0⟩
  | some q =>
    if q = "" then ⟨"search0.html", none, none, [], 0⟩
    else
      let r := b.search_index0 cfg.SOLR_INDEX_0 cfg.NUM_RECS_PER_PAGE q page "search1" 1
      ⟨"search0.html", some r.1, some r.2,
        [⟨cfg.SOLR_INDEX_0, cfg.NUM_RECS_PER_PAGE, q, page, "search1", 1⟩], 0⟩

/-- Handler of `/search2`: identical to `search0` except the view label
`"search2"` and the final argument `2`. -/
def search2 (cfg : Config) (b : SearchClient) (req : Request) : PlainOut :=
  let page := pageOrOne req.page
  match req.q with
  | none => ⟨"search0.html", none, none, [], 0⟩
  | some q =>
    if q = "" then ⟨"search0.html", none, none, [], 0⟩
    else
      let r := b.search_index0 cfg.SOLR_INDEX_0 cfg.NUM_RECS_PER_PAGE q page "search2" 2
      ⟨"search0.html", some r.1, some r.2,
        [⟨cfg.SOLR_INDEX_0, cfg.NUM_RECS_PER_PAGE, q, page, "search2", 2⟩], 0⟩

/-- Handler of `/search3`: reads `q`, `fk`, `fa`, `page`; if `q` is
truthy, constructs `SearchClient(SOLR_INDEX_1, NUM_RECS_PER_PAGE)` and
calls `search_index1(q, fk, fa, page, "search3", 1)`; always renders
`search1.html`. -/
def search3 (cfg : Config) (b : SearchClient) (req : Request) : FacetedOut :=
  let page := pageOrOne req.page
  match req.q with
  | none => ⟨"search1.html", none, none, none, [], 0⟩
  | some q =>
    if q = "" then ⟨"search1.html", none, none, none, [], 0⟩
    else
      let r := b.search_index1 cfg.SOLR_INDEX_1 cfg.NUM_RECS_PER_PAGE q req.fk req.fa page "search3" 1
      ⟨"search1.html", some r.1, some r.2.1, some r.2.2,
        [⟨cfg.SOLR_INDEX_1, cfg.NUM_RECS_PER_PAGE, q, req.fk, req.fa, page, "search3", 1⟩], 0⟩

/-- Handler of `/search4`: identical to `search3` except the view label
`"search4"` and the final argument `3`. -/
def search4 (cfg : Config) (b : SearchClient) (req : Request) : FacetedOut :=
  let page := pageOrOne req.page
  match req.q with
  | none => ⟨"search1.html", none, none, none, [], 0⟩
  | some q =>
    if q = "" then ⟨"search1.html", none, none, none, [], 0⟩
    else
      let r := b.search_index1 cfg.SOLR_INDEX_1 cfg.NUM_RECS_PER_PAGE q req.fk req.fa page "search4" 3
      ⟨"search1.html", some r.1, some r.2.1, some r.2.2,
        [⟨cfg.SOLR_INDEX_1, cfg.NUM_RECS_PER_PAGE, q, req.fk, req.fa, page, "search4", 3⟩], 0⟩

/-- Handler of `/content` (`methods=["GET"]`): reads the raw `id`
parameter, constructs `SearchClient(SOLR_INDEX_0, NUM_RECS_PER_PAGE)` and
calls `get(id)` unconditionally — there is no validation and no
`try`/`except`, so any error of `get` propagates out of the handler.  The
recorded `GetCall` is returned alongside the fallible render. -/
def content (cfg : Config) (b : SearchClient) (req : Request) :
    GetCall × Except ClientErr ContentOut :=
  (⟨cfg.SOLR_INDEX_0, cfg.NUM_RECS_PER_PAGE, req.id⟩,
   (b.get cfg.SOLR_INDEX_0 cfg.NUM_RECS_PER_PAGE req.id).map
     (fun d => ⟨"content.html", d⟩))

/-- A concrete configuration used to evaluate the handlers. -/
def cfg0 : Config := ⟨"idx0", "idx1", 10⟩

/-- A concrete client: searches return a fixed page, `get` always fails
with `NotFound` (as the spec says it does for an unknown identifier). -/
def mockClient : SearchClient where
  search_index0 := fun _ _ _ _ _ _ => ("meta0", ["doc0"])
  search_index1 := fun _ _ _ _ _ _ _ _ => ("meta1", "facets1", ["doc1"])
  get := fun _ _ id => .error (.notFound id)

/-- A string is blank when every character is whitespace (so the empty
string is blank, and so is a string of spaces). -/
def blankStr (s : String) : Bool :=
  s.data.all (fun c => c.isWhitespace)

/-- A `q` parameter is blank or absent when it is `none` or a blank
string. -/
def blankOrAbsent : Option String → Bool
  | none => true
  | some s => blankStr s

/-- Parse a run of decimal digits, accumulating their value; fails on the
first non-digit character. -/
def parseNatAux : List Char → Nat → Option Nat
  | [], acc => some acc
  | c :: cs, acc =>
    if c.isDigit then parseNatAux cs (acc * 10 + (c.toNat - 48)) else none

/-- Parse a non-empty all-digit string as a natural number. -/
def parseNat? (s : String) : Option Nat :=
  match s.data with
  | [] => none
  | _ => parseNatAux s.data 0

/-- The effective page value in the words of the spec: "`page`, if
present, must parse as a positive integer, else default to 1". -/
def specEffectivePage : Option String → Nat
  | none => 1
  | some s =>
    match parseNat? s with
    | some n => if 1 ≤ n then n else 1
    | none => 1

/-! ## Claim theorems -/

/-- C1 (counterexample): the claim fails for a blank — whitespace-only —
search text.  `q = " "` is blank, yet it is truthy in Python, so `/search0`
does invoke the search client and the rendered context carries documents. -/
theorem search0_blank_query_invokes_client :
    blankOrAbsent (some " ") = true ∧
    (search0 cfg0 mockClient ⟨some " ", none, none, none, none⟩).calls ≠ [] ∧
    (search0 cfg0 mockClient ⟨some " ", none, none, none, none⟩).docs ≠ none := by
  exact ⟨by decide, by decide, by decide⟩

/-- C1 (amended): for every request whose `q` parameter is absent or the
empty string (the exact Python-falsy cases the handlers test with
`if q:`), each of the five search handlers renders meta, facets and docs
as `None` and performs no client invocation. -/
theorem empty_or_absent_query_no_client_call (cfg : Config) (b : SearchClient)
    (req : Request) (h : req.q = none ∨ req.q = some "") :
    (search0 cfg b req).calls = [] ∧ (search0 cfg b req).meta = none ∧
      (search0 cfg b req).docs = none ∧
    (search1 cfg b req).calls = [] ∧ (search1 cfg b req).meta = none ∧
      (search1 cfg b req).docs = none ∧
    (search2 cfg b req).calls = [] ∧ (search2 cfg b req).meta = none ∧
      (search2 cfg b req).docs = none ∧
    (search3 cfg b req).calls = [] ∧ (search3 cfg b req).meta = none ∧
      (search3 cfg b req).facets = none ∧ (search3 cfg b req).docs = none ∧
    (search4 cfg b req).calls = [] ∧ (search4 cfg b req).meta = none ∧
      (search4 cfg b req).facets = none ∧ (search4 cfg b req).docs = none := by
  rcases h with h | h <;>
    simp [search0, search1, search2, search3, search4, h]

/-- C1 (witness): the amended statement evaluated at a request with no
`q` parameter. -/
theorem empty_or_absent_query_no_client_call_witness :
    (search0 cfg0 mockClient ⟨none, none, none, none, none⟩).calls = [] :=
  (empty_or_absent_query_no_client_call cfg0 mockClient
    ⟨none, none, none, none, none⟩ (Or.inl rfl)).1

/-- C2 (counterexample): for `page = "abc"` the spec's effective page is
`1`, but `/search0` passes the raw string `"abc"` onward to the client —
not the integer `1` and not any integer. -/
theorem nonnumeric_page_passed_raw :
    specEffectivePage (some "abc") = 1 ∧
    (search0 cfg0 mockClient
        ⟨some "cats", some "abc", none, none, none⟩).calls.map PlainCall.page =
      [PyVal.str "abc"] ∧
    PyVal.str "abc" ≠ PyVal.int 1 := by
  exact ⟨by decide, by decide, by decide⟩

/-- C2 (amended): the route-level fallback is on Python falsiness only —
an absent or empty `page` becomes the integer `1`, while any non-empty
`page` string (numeric or not) is passed onward verbatim, with no numeric
parsing in the route; every client call of every search handler carries
exactly `pageOrOne req.page`. -/
theorem page_fallback_on_missing (cfg : Config) (b : SearchClient) (req : Request) :
    pageOrOne none = PyVal.int 1 ∧
    pageOrOne (some "") = PyVal.int 1 ∧
    (∀ s : String, s ≠ "" → pageOrOne (some s) = PyVal.str s) ∧
    (search0 cfg b req).calls.map PlainCall.page =
      (search0 cfg b req).calls.map (fun _ => pageOrOne req.page) ∧
    (search1 cfg b req).calls.map PlainCall.page =
      (search1 cfg b req).calls.map (fun _ => pageOrOne req.page) ∧
    (search2 cfg b req).calls.map PlainCall.page =
      (search2 cfg b req).calls.map (fun _ => pageOrOne req.page) ∧
    (search3 cfg b req).calls.map FacetedCall.page =
      (search3 cfg b req).calls.map (fun _ => pageOrOne req.page) ∧
    (search4 cfg b req).calls.map FacetedCall.page =
      (search4 cfg b req).calls.map (fun _ => pageOrOne req.page) := by
  refine ⟨rfl, rfl, fun s hs => by simp [pageOrOne, hs], ?_, ?_, ?_, ?_, ?_⟩ <;>
    rcases req with ⟨q, pg, fk, fa, id⟩ <;> rcases q with _ | q <;>
      first
        | rfl
        | (by_cases hq : q = "" <;>
            simp [search0, search1, search2, search3, search4, hq])

/-- C2 (witness): the amended statement evaluated at a concrete request,
with the inner hypothesis discharged at the non-empty string `"abc"`. -/
theorem page_fallback_on_missing_witness :
    pageOrOne (some "abc") = PyVal.str "abc" :=
  (page_fallback_on_missing cfg0 mockClient
    ⟨some "cats", some "abc", none, none, none⟩).2.2.1 "abc" (by decide)

/-- C4 (counterexample): on `/search0?q=cats` the client is invoked while
the number of `SearchForm` validations performed is `0` — the handler
never validates via the Input Form before querying. -/
theorem client_invoked_without_form_validation :
    truthy (some "cats") = true ∧
    (search0 cfg0 mockClient ⟨some "cats", none, none, none, none⟩).calls ≠ [] ∧
    (search0 cfg0 mockClient
        ⟨some "cats", none, none, none, none⟩).formValidations = 0 := by
  exact ⟨by decide, by decide, by decide⟩

/-- C4 (amended): no search handler ever invokes `SearchForm` (it is
imported but unused); the only gate before the client call is Python
truthiness of `q`: when `q` is falsy the handler renders the empty-state
page with no query, and when `q` is truthy it invokes the client
directly. -/
theorem truthiness_gate_no_form_validation (cfg : Config) (b : SearchClient)
    (req : Request) :
    (search0 cfg b req).formValidations = 0 ∧
    (search1 cfg b req).formValidations = 0 ∧
    (search2 cfg b req).formValidations = 0 ∧
    (search3 cfg b req).formValidations = 0 ∧
    (search4 cfg b req).formValidations = 0 ∧
    (truthy req.q = false →
      (search0 cfg b req).calls = [] ∧ (search3 cfg b req).calls = []) ∧
    (truthy req.q = true →
      (search0 cfg b req).calls ≠ [] ∧ (search3 cfg b req).calls ≠ []) := by
  rcases req with ⟨q, pg, fk, fa, id⟩
  rcases q with _ | q
  · simp [search0, search1, search2, search3, search4, truthy]
  · by_cases hq : q = "" <;>
      simp [search0, search1, search2, search3, search4, truthy, hq]

/-- C4 (witness): the amended statement evaluated at `/search0?q=cats`,
discharging the truthiness hypothesis there. -/
theorem truthiness_gate_no_form_validation_witness :
    (search0 cfg0 mockClient ⟨some "cats", none, none, none, none⟩).calls ≠ [] :=
  ((truthiness_gate_no_form_validation cfg0 mockClient
    ⟨some "cats", none, none, none, none⟩).2.2.2.2.2.2 (by decide)).1

/-- Parameters of the query the Search Client sends to the external
index: which index, the search text, the result offset and the number of
results requested. -/
structure SolrQueryParams where
  index : String
  text : String
  start : Nat
  rows : Nat
deriving DecidableEq

/-- Modelled from the spec: the pagination of the Search Client
(`services.py`, which is not under `src/`).  The spec states that
`searchPlain` "issues a query against the plain index, requesting
`pageSize` results starting at offset `(page-1)*pageSize`", and that
`searchFaceted` paginates "as above". -/
def buildQuery (index text : String) (page pageSize : Nat) : SolrQueryParams :=
  ⟨index, text, (page - 1) * pageSize, pageSize⟩

/-- Strip the view label and the numeric final argument from a plain
call, i.e. replace them. -/
def relabelPlain (view : String) (num : Nat) (c : PlainCall) : PlainCall :=
  { c with view := view, num := num }

/-- Replace the view label and the numeric final argument of a faceted
call. -/
def relabelFaceted (view : String) (num : Nat) (c : FacetedCall) : FacetedCall :=
  { c with view := view, num := num }

/-- C3: for every search invocation with effective page `p ≥ 1` and page
size `pageSize`, the offset requested from the external index is
`(p-1)*pageSize` and the number of results requested is `pageSize`; page
`1` starts at offset `0` and each successive page advances the offset by
exactly `pageSize`. -/
theorem plain_search_offset (index text : String) (p pageSize : Nat)
    (h : 1 ≤ p) :
    (buildQuery index text p pageSize).start = (p - 1) * pageSize ∧
    (buildQuery index text p pageSize).rows = pageSize ∧
    (buildQuery index text 1 pageSize).start = 0 ∧
    (buildQuery index text (p + 1) pageSize).start =
      (buildQuery index text p pageSize).start + pageSize := by
  obtain ⟨m, rfl⟩ := Nat.exists_eq_add_of_le h
  refine ⟨rfl, rfl, by simp [buildQuery], ?_⟩
  simp [buildQuery, Nat.add_sub_cancel_left, Nat.add_mul]
  ring

/-- C3 (witness): page `2` with page size `10` requests offset `10` and
`10` rows. -/
theorem plain_search_offset_witness :
    (buildQuery "idx0" "cats" 2 10).start = (2 - 1) * 10 :=
  (plain_search_offset "idx0" "cats" 2 10 (by decide)).1

/-- C5: the route-to-operation-to-index binding.  Every client call made
by `/search0`, `/search1`, `/search2` is a `search_index0` (plain-search)
invocation against `SOLR_INDEX_0`; every call made by `/search3`,
`/search4` is a `search_index1` (faceted) invocation against
`SOLR_INDEX_1`; `/content` performs its `get` against `SOLR_INDEX_0`.
All carry the configured page size. -/
theorem route_index_operation_binding (cfg : Config) (b : SearchClient)
    (req : Request) :
    (∀ c ∈ (search0 cfg b req).calls,
      c.index = cfg.SOLR_INDEX_0 ∧ c.pageSize = cfg.NUM_RECS_PER_PAGE) ∧
    (∀ c ∈ (search1 cfg b req).calls,
      c.index = cfg.SOLR_INDEX_0 ∧ c.pageSize = cfg.NUM_RECS_PER_PAGE) ∧
    (∀ c ∈ (search2 cfg b req).calls,
      c.index = cfg.SOLR_INDEX_0 ∧ c.pageSize = cfg.NUM_RECS_PER_PAGE) ∧
    (∀ c ∈ (search3 cfg b req).calls,
      c.index = cfg.SOLR_INDEX_1 ∧ c.pageSize = cfg.NUM_RECS_PER_PAGE) ∧
    (∀ c ∈ (search4 cfg b req).calls,
      c.index = cfg.SOLR_INDEX_1 ∧ c.pageSize = cfg.NUM_RECS_PER_PAGE) ∧
    (content cfg b req).1.index = cfg.SOLR_INDEX_0 ∧
    (content cfg b req).1.pageSize = cfg.NUM_RECS_PER_PAGE := by
  rcases req with ⟨q, pg, fk, fa, id⟩
  rcases q with _ | q
  · simp [search0, search1, search2, search3, search4, content]
  · by_cases hq : q = "" <;>
      simp [search0, search1, search2, search3, search4, content, hq]

/-- C5 (witness): the binding evaluated on `/search0?q=cats` under the
concrete configuration. -/
theorem route_index_operation_binding_witness :
    ({ index := "idx0", pageSize := 10, q := "cats", page := PyVal.int 1,
       view := "search0", num := 0 } : PlainCall).index = cfg0.SOLR_INDEX_0 :=
  ((route_index_operation_binding cfg0 mockClient
    ⟨some "cats", none, none, none, none⟩).1 _ (by decide)).1

/-- C7: the view label passed to the client by each search route equals
the route's own name. -/
theorem view_label_matches_route (cfg : Config) (b : SearchClient)
    (req : Request) :
    (∀ c ∈ (search0 cfg b req).calls, c.view = "search0") ∧
    (∀ c ∈ (search1 cfg b req).calls, c.view = "search1") ∧
    (∀ c ∈ (search2 cfg b req).calls, c.view = "search2") ∧
    (∀ c ∈ (search3 cfg b req).calls, c.view = "search3") ∧
    (∀ c ∈ (search4 cfg b req).calls, c.view = "search4") := by
  rcases req with ⟨q, pg, fk, fa, id⟩
  rcases q with _ | q
  · simp [search0, search1, search2, search3, search4]
  · by_cases hq : q = "" <;>
      simp [search0, search1, search2, search3, search4, hq]

/-- C7 (witness): on `/search0?q=cats` the recorded call carries the view
label `"search0"`. -/
theorem view_label_matches_route_witness :
    ({ index := "idx0", pageSize := 10, q := "cats", page := PyVal.int 1,
       view := "search0", num := 0 } : PlainCall).view = "search0" :=
  (view_label_matches_route cfg0 mockClient
    ⟨some "cats", none, none, none, none⟩).1 _ (by decide)

/-- C9: `/content` always performs exactly the `get` call with the raw
`id` parameter — `none` included when `id` is absent — with no
validation, and its result is whatever `get` returns: a success renders
`content.html` with the fetched document, and an error of `get` is
propagated unchanged out of the handler. -/
theorem content_unvalidated_propagates (cfg : Config) (b : SearchClient)
    (req : Request) :
    (content cfg b req).1 =
      ⟨cfg.SOLR_INDEX_0, cfg.NUM_RECS_PER_PAGE, req.id⟩ ∧
    (∀ e, b.get cfg.SOLR_INDEX_0 cfg.NUM_RECS_PER_PAGE req.id = .error e →
      (content cfg b req).2 = .error e) ∧
    (∀ d, b.get cfg.SOLR_INDEX_0 cfg.NUM_RECS_PER_PAGE req.id = .ok d →
      (content cfg b req).2 = .ok ⟨"content.html", d⟩) := by
  refine ⟨rfl, fun e he => ?_, fun d hd => ?_⟩
  · simp [content, he, Except.map]
  · simp [content, hd, Except.map]

/-- C9 (witness): with an absent `id`, the handler still calls `get` with
`none` and the client's `NotFound` error propagates out unchanged. -/
theorem content_unvalidated_propagates_witness :
    (content cfg0 mockClient ⟨none, none, none, none, none⟩).2 =
      .error (.notFound none) :=
  (content_unvalidated_propagates cfg0 mockClient
    ⟨none, none, none, none, none⟩).2.1 _ rfl

/-- C10: `/search0`, `/search1`, `/search2` are pairwise equivalent up to
the view label and the numeric final argument (`0`, `1`, `2`): all render
`search0.html` and their client calls agree after relabelling, so they
pass the same index, page size, `q` and `page`; likewise `/search3` and
`/search4` (`1` vs `3`) both render `search1.html`.  When the client's
result does not depend on the label arguments, the rendered meta and
docs coincide as well. -/
theorem plain_handlers_equivalent_up_to_label (cfg : Config)
    (b : SearchClient) (req : Request) :
    (search0 cfg b req).template = "search0.html" ∧
    (search1 cfg b req).template = "search0.html" ∧
    (search2 cfg b req).template = "search0.html" ∧
    (search1 cfg b req).calls =
      (search0 cfg b req).calls.map (relabelPlain "search1" 1) ∧
    (search2 cfg b req).calls =
      (search0 cfg b req).calls.map (relabelPlain "search2" 2) ∧
    (search3 cfg b req).template = "search1.html" ∧
    (search4 cfg b req).template = "search1.html" ∧
    (search4 cfg b req).calls =
      (search3 cfg b req).calls.map (relabelFaceted "search4" 3) ∧
    ((∀ i ps qq pv v n v' n',
        b.search_index0 i ps qq pv v n = b.search_index0 i ps qq pv v' n') →
      (search1 cfg b req).meta = (search0 cfg b req).meta ∧
      (search1 cfg b req).docs = (search0 cfg b req).docs ∧
      (search2 cfg b req).meta = (search0 cfg b req).meta ∧
      (search2 cfg b req).docs = (search0 cfg b req).docs) := by
  rcases req with ⟨q, pg, fk, fa, id⟩
  rcases q with _ | q
  · simp [search0, search1, search2, search3, search4]
  · by_cases hq : q = "" <;>
      simp [search0, search1, search2, search3, search4, hq,
        relabelPlain, relabelFaceted]
    intro hb
    rw [hb _ _ _ _ "search1" 1 "search0" 0, hb _ _ _ _ "search2" 2 "search0" 0]
    simp

/-- C10 (witness): with a client whose result ignores the label
arguments, `/search1?q=cats` renders the same meta as `/search0?q=cats`. -/
theorem plain_handlers_equivalent_up_to_label_witness :
    (search1 cfg0 mockClient ⟨some "cats", none, none, none, none⟩).meta =
      (search0 cfg0 mockClient ⟨some "cats", none, none, none, none⟩).meta :=
  ((plain_handlers_equivalent_up_to_label cfg0 mockClient
    ⟨some "cats", none, none, none, none⟩).2.2.2.2.2.2.2.2
    (fun _ _ _ _ _ _ _ _ => rfl)).1

/-- HTTP methods relevant to this application. -/
inductive Method where
  | GET
  | POST
deriving DecidableEq, BEq

/-- The methods each route accepts, from the `@app.route` decorators:
`/`, `/index` and `/content` are GET-only, each `/searchN` accepts GET
and POST. -/
def routeMethods : String → List Method
  | "/" => [.GET]
  | "/index" => [.GET]
  | "/content" => [.GET]
  | "/search0" => [.GET, .POST]
  | "/search1" => [.GET, .POST]
  | "/search2" => [.GET, .POST]
  | "/search3" => [.GET, .POST]
  | "/search4" => [.GET, .POST]
  | _ => []

/-- The response of any route, for a uniform dispatcher. -/
inductive AnyOut where
  | page (template : String)
  | plain (o : PlainOut)
  | faceted (o : FacetedOut)
  | document (r : GetCall × Except ClientErr ContentOut)

/-- The Flask dispatcher restricted to this application: route lookup
plus the method check of the `@app.route` decorators.  The handlers read
only `request.args` — the query-string parameters — and never the
request method or body. -/
def dispatch (cfg : Config) (b : SearchClient) (route : String)
    (m : Method) (req : Request) : Option AnyOut :=
  if (routeMethods route).contains m then
    match route with
    | "/" => some (.page "index.html")
    | "/index" => some (.page "index.html")
    | "/content" => some (.document (content cfg b req))
    | "/search0" => some (.plain (search0 cfg b req))
    | "/search1" => some (.plain (search1 cfg b req))
    | "/search2" => some (.plain (search2 cfg b req))
    | "/search3" => some (.faceted (search3 cfg b req))
    | "/search4" => some (.faceted (search4 cfg b req))
    | _ => none
  else none

/-- C6: each of the five search routes accepts both GET and POST, and
for the same parameter values the dispatched response under POST equals
the one under GET — the handlers never consult the request method. -/
theorem search_routes_get_post_equivalent (cfg : Config) (b : SearchClient)
    (req : Request) :
    (routeMethods "/search0").contains .GET = true ∧
    (routeMethods "/search0").contains .POST = true ∧
    (routeMethods "/search1").contains .GET = true ∧
    (routeMethods "/search1").contains .POST = true ∧
    (routeMethods "/search2").contains .GET = true ∧
    (routeMethods "/search2").contains .POST = true ∧
    (routeMethods "/search3").contains .GET = true ∧
    (routeMethods "/search3").contains .POST = true ∧
    (routeMethods "/search4").contains .GET = true ∧
    (routeMethods "/search4").contains .POST = true ∧
    dispatch cfg b "/search0" .POST req = dispatch cfg b "/search0" .GET req ∧
    dispatch cfg b "/search1" .POST req = dispatch cfg b "/search1" .GET req ∧
    dispatch cfg b "/search2" .POST req = dispatch cfg b "/search2" .GET req ∧
    dispatch cfg b "/search3" .POST req = dispatch cfg b "/search3" .GET req ∧
    dispatch cfg b "/search4" .POST req = dispatch cfg b "/search4" .GET req := by
  exact ⟨rfl, rfl, rfl, rfl, rfl, rfl, rfl, rfl, rfl, rfl,
    rfl, rfl, rfl, rfl, rfl⟩

/-- A user-visible HTTP response surface: its status code and whether
the body carries internal detail (a traceback). -/
structure HttpResponse where
  status : Nat
  internalDetail : Bool
deriving DecidableEq

/-- Flask's default surfacing of a handler outcome: a successful render
is a 200 response; an uncaught exception becomes a 500 response whose
body carries the interactive-debugger traceback exactly when the app
runs in debug mode.  `webtool.py` registers no error handler and no
`try`/`except`, so this default is what the user sees. -/
def surface (debug : Bool) : Except ClientErr ContentOut → HttpResponse
  | .ok _ => ⟨200, false⟩
  | .error _ => ⟨500, debug⟩

/-- The application is started with `app.run(debug=True)`. -/
def appDebug : Bool := true

/-- C8 (counterexample): for `/content` with an unknown id the client's
`NotFound` error is uncaught by the handler, and the surfaced response
has status `500` — not a 404-equivalent — and, because the app runs with
`debug=True`, it carries internal detail. -/
theorem unknown_id_surfaces_500_with_detail :
    surface appDebug
        (content cfg0 mockClient ⟨none, none, none, none, some "nope"⟩).2 =
      ⟨500, true⟩ ∧
    (500 : Nat) ≠ 404 := by
  exact ⟨rfl, by decide⟩

/-- C8 (amended): an empty query yields the HTTP-200 empty-state page
(the search handlers always render their template, with no documents
when `q` is falsy); but any client error in `/content` — `NotFound` for
an unknown id as much as `UpstreamError` — propagates uncaught and is
surfaced as a 500 response, never a 404, and under the configured
`debug=True` the error page leaks internal detail. -/
theorem error_surface_amended (cfg : Config) (b : SearchClient)
    (req : Request) :
    ((req.q = none ∨ req.q = some "") →
      (search0 cfg b req).template = "search0.html" ∧
      (search0 cfg b req).docs = none ∧ (search0 cfg b req).calls = []) ∧
    (∀ e, (content cfg b req).2 = .error e →
      surface appDebug (content cfg b req).2 = ⟨500, true⟩) ∧
    (∀ d, (content cfg b req).2 = .ok d →
      surface appDebug (content cfg b req).2 = ⟨200, false⟩) := by
  refine ⟨fun h => ?_, fun e he => ?_, fun d hd => ?_⟩
  · rcases h with h | h <;> simp [search0, h]
  · rw [he]; rfl
  · rw [hd]; rfl

/-- C8 (witness): the amended statement evaluated at `/content` with an
unknown id under the mock client, whose `get` fails with `NotFound`. -/
theorem error_surface_amended_witness :
    surface appDebug
        (content cfg0 mockClient ⟨none, none, none, none, some "nope"⟩).2 =
      ⟨500, true⟩ :=
  (error_surface_amended cfg0 mockClient
    ⟨none, none, none, none, some "nope"⟩).2.1 (.notFound (some "nope")) rfl
